import Mathlib

/-!
CXL memory-device mailbox header (`drivers/cxl/cxlmem.h`)

A shallow embedding of the protocol surface declared in `cxlmem.h`:

* the packed wire structures, as field lists whose offsets are the running
  sum of the sizes of the preceding fields (`__packed`: no padding);
* the mailbox return-code table `CMD_CMD_RC_TABLE` with its two lookups;
* the memory-device status register macros.
-/

namespace CxlMem

set_option autoImplicit false

/-! ## Packed structure layouts -/

/-- Scalar member types of the wire structures: `u8`, `__le16`, `__le32`,
`__le64` and `uuid_t`. -/
inductive Scalar where
  | u8
  | le16
  | le32
  | le64
  | uuid_t
deriving DecidableEq, Repr

/-- Modelled from the spec: the scalar types are declared in kernel headers
other than `cxlmem.h`; on the wire they are the 1-, 2-, 4- and 8-byte
little-endian integers and the 16-byte UUID. -/
def Scalar.width : Scalar → Nat
  | .u8 => 1
  | .le16 => 2
  | .le32 => 4
  | .le64 => 8
  | .uuid_t => 16

/-- C types that occur in the wire structures of `cxlmem.h`.  `array t n` is
`t x[n]`, `flex t` is the flexible array member `t x[]`, and `struct fs` is a
`struct { ... } __packed` with the fields `fs` in declaration order. -/
inductive CType where
  | scalar (s : Scalar)
  | array (elem : CType) (n : Nat)
  | flex (elem : CType)
  | struct (fields : List (String × CType))

abbrev u8 : CType := .scalar .u8
abbrev le16 : CType := .scalar .le16
abbrev le32 : CType := .scalar .le32
abbrev le64 : CType := .scalar .le64
abbrev uuid_t : CType := .scalar .uuid_t

mutual
/-- Size in bytes of a type.  A structure is packed: its size is the sum of
the sizes of its members.  A flexible array member contributes nothing to
the size of the structure that ends with it. -/
def sizeof : CType → Nat
  | .scalar s => s.width
  | .array t n => n * sizeof t
  | .flex _ => 0
  | .struct fs => sizeofFields fs
/-- Size of a packed field list: the sum of the field sizes. -/
def sizeofFields : List (String × CType) → Nat
  | [] => 0
  | (_, t) :: rest => sizeof t + sizeofFields rest
end

/-- Offset of the field named `f` in a packed field list, `none` when there
is no such field. -/
def offsetofFields : List (String × CType) → String → Option Nat
  | [], _ => none
  | (n, t) :: rest, f =>
    if n = f then some 0 else (offsetofFields rest f).map (fun o => sizeof t + o)

/-- Type of the field named `f` in a field list. -/
def typeofFields : List (String × CType) → String → Option CType
  | [], _ => none
  | (n, t) :: rest, f => if n = f then some t else typeofFields rest f

/-- `offsetof(t, f)` for a packed structure type. -/
def offsetof : CType → String → Option Nat
  | .struct fs, f => offsetofFields fs f
  | _, _ => none

/-- Type of member `f` of a structure type. -/
def typeof : CType → String → Option CType
  | .struct fs, f => typeofFields fs f
  | _, _ => none

/-- Byte range `(first, last)` occupied by member `f`; `none` for an unknown
member or a member of size zero. -/
def byteRange (t : CType) (f : String) : Option (Nat × Nat) :=
  match offsetof t f, typeof t f with
  | some o, some ft => if sizeof ft = 0 then none else some (o, o + sizeof ft - 1)
  | _, _ => none

/-- Offset of element `i` of the array member `f` (`offsetof(t, f[i])`). -/
def offsetofElem (t : CType) (f : String) (i : Nat) : Option Nat :=
  match offsetof t f, typeof t f with
  | some o, some (.array e n) => if i < n then some (o + i * sizeof e) else none
  | some o, some (.flex e) => some (o + i * sizeof e)
  | _, _ => none

/-- Names of the members of a structure type, in declaration order. -/
def fieldNames : CType → List String
  | .struct fs => fs.map Prod.fst
  | _ => []

/-- Structure `struct cxl_event_record_hdr` (Common Event Record Format). -/
def cxl_event_record_hdr : CType :=
  .struct [
    ("id", uuid_t),
    ("length", u8),
    ("flags", .array u8 3),
    ("handle", le16),
    ("related_handle", le16),
    ("timestamp", le64),
    ("maint_op_class", u8),
    ("reserved", .array u8 15)]

def CXL_EVENT_RECORD_DATA_LENGTH : Nat := 0x50

/-- Structure `struct cxl_event_record_raw`. -/
def cxl_event_record_raw : CType :=
  .struct [
    ("hdr", cxl_event_record_hdr),
    ("data", .array u8 CXL_EVENT_RECORD_DATA_LENGTH)]

def CXL_EVENT_GEN_MED_COMP_ID_SIZE : Nat := 0x10

/-- Structure `struct cxl_event_gen_media` (General Media Event Record). -/
def cxl_event_gen_media : CType :=
  .struct [
    ("hdr", cxl_event_record_hdr),
    ("phys_addr", le64),
    ("descriptor", u8),
    ("type", u8),
    ("transaction_type", u8),
    ("validity_flags", .array u8 2),
    ("channel", u8),
    ("rank", u8),
    ("device", .array u8 3),
    ("component_id", .array u8 CXL_EVENT_GEN_MED_COMP_ID_SIZE),
    ("reserved", .array u8 46)]

def CXL_EVENT_DER_CORRECTION_MASK_SIZE : Nat := 0x20

/-- Structure `struct cxl_event_dram` (DRAM Event Record). -/
def cxl_event_dram : CType :=
  .struct [
    ("hdr", cxl_event_record_hdr),
    ("phys_addr", le64),
    ("descriptor", u8),
    ("type", u8),
    ("transaction_type", u8),
    ("validity_flags", .array u8 2),
    ("channel", u8),
    ("rank", u8),
    ("nibble_mask", .array u8 3),
    ("bank_group", u8),
    ("bank", u8),
    ("row", .array u8 3),
    ("column", .array u8 2),
    ("correction_mask", .array u8 CXL_EVENT_DER_CORRECTION_MASK_SIZE),
    ("reserved", .array u8 0x17)]

/-- Structure `struct cxl_get_health_info` (Get Health Info Record). -/
def cxl_get_health_info : CType :=
  .struct [
    ("health_status", u8),
    ("media_status", u8),
    ("add_status", u8),
    ("life_used", u8),
    ("device_temp", .array u8 2),
    ("dirty_shutdown_cnt", .array u8 4),
    ("cor_vol_err_cnt", .array u8 4),
    ("cor_per_err_cnt", .array u8 4)]

/-- Structure `struct cxl_event_mem_module` (Memory Module Event Record). -/
def cxl_event_mem_module : CType :=
  .struct [
    ("hdr", cxl_event_record_hdr),
    ("event_type", u8),
    ("info", cxl_get_health_info),
    ("reserved", .array u8 0x3d)]

/-- Structure `struct cxl_get_event_payload` (Get Event Records output). -/
def cxl_get_event_payload : CType :=
  .struct [
    ("flags", u8),
    ("reserved1", u8),
    ("overflow_err_count", le16),
    ("first_overflow_timestamp", le64),
    ("last_overflow_timestamp", le64),
    ("record_count", le16),
    ("reserved2", .array u8 10),
    ("records", .flex cxl_event_record_raw)]

/-- Structure `struct cxl_mbox_clear_event_payload` (Clear Event Records
input). -/
def cxl_mbox_clear_event_payload : CType :=
  .struct [
    ("event_log", u8),
    ("clear_flags", u8),
    ("nr_recs", u8),
    ("reserved", .array u8 3),
    ("handles", .flex le16)]

/-- Structure `struct cxl_mbox_get_partition_info`. -/
def cxl_mbox_get_partition_info : CType :=
  .struct [
    ("active_volatile_cap", le64),
    ("active_persistent_cap", le64),
    ("next_volatile_cap", le64),
    ("next_persistent_cap", le64)]

/-- Structure `struct cxl_mbox_set_partition_info`. -/
def cxl_mbox_set_partition_info : CType :=
  .struct [
    ("volatile_capacity", le64),
    ("flags", u8)]

/-- Width conversion on a store into an integer member of type `t`: the value
is reduced modulo `2 ^ (8 * sizeof t)`. -/
def storeAs (t : CType) (v : Nat) : Nat := v % 2 ^ (8 * sizeof t)

/-! ## Bit helpers -/

def BITS_PER_LONG : Nat := 64

/-- Modelled from the spec: `BIT` is declared in the kernel's bit-operation
headers, not in `cxlmem.h`; `BIT(nr)` is the `unsigned long` with only bit
`nr` set (the spec's "bit0", "bit1"). -/
def BIT (nr : Nat) : Nat := (1 <<< nr) % 2 ^ BITS_PER_LONG

/-- Modelled from the spec: `GENMASK` is declared in the kernel's
bit-operation headers, not in `cxlmem.h`; `GENMASK(h, l)` is the
`unsigned long` whose bits `l` through `h` are set:
`((~0UL) - (1UL << l) + 1) & (~0UL >> (BITS_PER_LONG - 1 - h))`. -/
def GENMASK (h l : Nat) : Nat :=
  (((2 ^ BITS_PER_LONG - 1) - (1 <<< l) % 2 ^ BITS_PER_LONG + 1) % 2 ^ BITS_PER_LONG)
    &&& ((2 ^ BITS_PER_LONG - 1) >>> (BITS_PER_LONG - 1 - h))

/-- Index of the lowest set bit of `mask` among the first `fuel` bits that
start at bit `i` (the shift of a bit field, `__bf_shf`); `0` when none. -/
def bf_shf_from (mask : Nat) : Nat → Nat → Nat
  | 0, _ => 0
  | fuel + 1, i => if mask.testBit i then i else bf_shf_from mask fuel (i + 1)

/-- Shift of the bit field described by `mask`. -/
def bf_shf (mask : Nat) : Nat := bf_shf_from mask BITS_PER_LONG 0

/-- Modelled from the spec: `FIELD_GET` is declared in the kernel's bit-field
header, not in `cxlmem.h`; `FIELD_GET(mask, reg)` extracts the field selected
by `mask`: `(typeof(mask))(((reg) & (mask)) >> __bf_shf(mask))`. -/
def FIELD_GET (mask reg : Nat) : Nat :=
  ((reg &&& mask) >>> bf_shf mask) % 2 ^ BITS_PER_LONG

/-- Modelled from the spec: `U8_MAX` is declared in the kernel's limits
header, not in `cxlmem.h`; it is `((u8)~0U)`, the largest value of one
byte. -/
def U8_MAX : Nat := (2 ^ 32 - 1) % 2 ^ 8

/-- Modelled from the spec: `SZ_256M` is declared in the kernel's sizes
header, not in `cxlmem.h`; it is 256 MiB in bytes. -/
def SZ_256M : Nat := 0x10000000

/-! ## Memory Device Status Register -/

def CXLMDEV_STATUS_OFFSET : Nat := 0x0
def CXLMDEV_DEV_FATAL : Nat := BIT 0
def CXLMDEV_FW_HALT : Nat := BIT 1
def CXLMDEV_STATUS_MEDIA_STATUS_MASK : Nat := GENMASK 3 2
def CXLMDEV_MS_NOT_READY : Nat := 0
def CXLMDEV_MS_READY : Nat := 1
def CXLMDEV_MS_ERROR : Nat := 2
def CXLMDEV_MS_DISABLED : Nat := 3

/-- Media-ready predicate `CXLMDEV_READY(status)`. -/
def CXLMDEV_READY (status : Nat) : Bool :=
  FIELD_GET CXLMDEV_STATUS_MEDIA_STATUS_MASK status == CXLMDEV_MS_READY

def CXLMDEV_MBOX_IF_READY : Nat := BIT 4
def CXLMDEV_RESET_NEEDED_MASK : Nat := GENMASK 7 5
def CXLMDEV_RESET_NEEDED_NOT : Nat := 0

/-- Reset-needed predicate `CXLMDEV_RESET_NEEDED(status)`. -/
def CXLMDEV_RESET_NEEDED (status : Nat) : Bool :=
  FIELD_GET CXLMDEV_RESET_NEEDED_MASK status != CXLMDEV_RESET_NEEDED_NOT

/-! ## Mailbox command and return codes -/

/-- Structure `struct cxl_mbox_cmd`: a command to be submitted to hardware.
The payload pointers are represented by the byte contents they point to. -/
structure cxl_mbox_cmd where
  opcode : Nat
  payload_in : List Nat
  payload_out : List Nat
  size_in : Nat
  size_out : Nat
  min_out : Nat
  return_code : Nat

/-- The X-macro list `CMD_CMD_RC_TABLE`: one `C(a, b, c)` per return code.
The errno constant `ENXIO` is declared outside `cxlmem.h` and is a parameter;
`NULL` is `none`. -/
def CMD_CMD_RC_TABLE ( ENXIO : Int) : List (String × Int × Option String) := [
  ("SUCCESS", 0, none),
  ("BACKGROUND", - ENXIO, some "background cmd started successfully"),
  ("INPUT", - ENXIO, some "cmd input was invalid"),
  ("UNSUPPORTED", - ENXIO, some "cmd is not supported"),
  ("INTERNAL", - ENXIO, some "internal device error"),
  ("RETRY", - ENXIO, some "temporary error, retry once"),
  ("BUSY", - ENXIO, some "ongoing background operation"),
  ("MEDIADISABLED", - ENXIO, some "media access is disabled"),
  ("FWINPROGRESS", - ENXIO, some "one FW package can be transferred at a time"),
  ("FWOOO", - ENXIO, some "FW package content was transferred out of order"),
  ("FWAUTH", - ENXIO, some "FW package authentication failed"),
  ("FWSLOT", - ENXIO, some "FW slot is not supported for requested operation"),
  ("FWROLLBACK", - ENXIO, some "rolled back to the previous active FW"),
  ("FWRESET", - ENXIO, some "FW failed to activate, needs cold reset"),
  ("HANDLE", - ENXIO, some "one or more Event Record Handles were invalid"),
  ("PADDR", - ENXIO, some "physical address specified is invalid"),
  ("POISONLMT", - ENXIO, some "poison injection limit has been reached"),
  ("MEDIAFAILURE", - ENXIO, some "permanent issue with the media"),
  ("ABORT", - ENXIO, some "background cmd was aborted by device"),
  ("SECURITY", - ENXIO, some "not valid in the current security state"),
  ("PASSPHRASE", - ENXIO, some "phrase doesn't match current set passphrase"),
  ("MBUNSUPPORTED", - ENXIO, some "unsupported on the mailbox it was issued on"),
  ("PAYLOADLEN", - ENXIO, some "invalid payload length")]

/-- The anonymous enum built with `C(a, b, c) CXL_MBOX_CMD_RC_##a`: the value
of enumerator `CXL_MBOX_CMD_RC_a` is the position of `a` in the list. -/
def CXL_MBOX_CMD_RC (a : String) : Option Nat :=
  let names := (CMD_CMD_RC_TABLE 0).map Prod.fst
  if a ∈ names then some (names.indexOf a) else none

/-- Structure `struct cxl_mbox_cmd_rc`. -/
structure cxl_mbox_cmd_rc where
  err : Int
  desc : Option String

/-- The table `cxl_mbox_cmd_rctable[]`, built with `C(a, b, c) { b, c }`. -/
def cxl_mbox_cmd_rctable ( ENXIO : Int) : List cxl_mbox_cmd_rc :=
  (CMD_CMD_RC_TABLE ENXIO).map (fun e => { err := e.2.1, desc := e.2.2 })

/-- Lookup `cxl_mbox_cmd_rc2str`: the table is indexed with the return code
without a range check; an index past the end of the table has no defined
result (`none`). -/
def cxl_mbox_cmd_rc2str ( ENXIO : Int) (mbox_cmd : cxl_mbox_cmd) : Option (Option String) :=
  ((cxl_mbox_cmd_rctable ENXIO)[mbox_cmd.return_code]?).map (fun e => e.desc)

/-- Lookup `cxl_mbox_cmd_rc2errno`, indexed like `cxl_mbox_cmd_rc2str`. -/
def cxl_mbox_cmd_rc2errno ( ENXIO : Int) (mbox_cmd : cxl_mbox_cmd) : Option Int :=
  ((cxl_mbox_cmd_rctable ENXIO)[mbox_cmd.return_code]?).map (fun e => e.err)

/-- Capacity multiplier `CXL_CAPACITY_MULTIPLIER`: capacities are counted in
multiples of 256MB. -/
def CXL_CAPACITY_MULTIPLIER : Nat := SZ_256M

def CXL_GET_EVENT_FLAG_OVERFLOW : Nat := BIT 0
def CXL_GET_EVENT_FLAG_MORE_RECORDS : Nat := BIT 1

def CXL_CLEAR_EVENT_MAX_HANDLES : Nat := U8_MAX

def CXL_SET_PARTITION_IMMEDIATE_FLAG : Nat := BIT 0

/-- Sizes of the members of a structure type, in declaration order. -/
def memberSizes : CType → List Nat
  | .struct fs => fs.map (fun p => sizeof p.2)
  | _ => []

/-- Size of what follows the first member of a structure type: for an event
record variant, the body after the common header. -/
def bodySize : CType → Nat
  | .struct (_ :: body) => sizeofFields body
  | _ => 0

/-- Size in bytes of an instance of `t` whose flexible array member `f` holds
`n` elements. -/
def sizeofFlex (t : CType) (f : String) (n : Nat) : Option Nat :=
  match typeof t f with
  | some (.flex e) => some (sizeof t + n * sizeof e)
  | _ => none

/-! ## Byte images of the event record header -/

/-- Modelled from the spec: the byte-order helpers behind `__le16` and
`__le64` are not in `cxlmem.h`; the wire layouts are little-endian, so an
`n`-byte integer is written least significant byte first. -/
def cpu_to_le : Nat → Nat → List Nat
  | 0, _ => []
  | n + 1, v => v % 256 :: cpu_to_le n (v / 256)

/-- Modelled from the spec: reading back a little-endian integer from its
bytes, least significant byte first. -/
def le_to_cpu : List Nat → Nat
  | [] => 0
  | b :: bs => b + 256 * le_to_cpu bs

/-- A value of `struct cxl_event_record_hdr`: one entry per member, byte
arrays as lists of bytes. -/
structure EventRecordHdr where
  id : List Nat
  length : Nat
  flags : List Nat
  handle : Nat
  related_handle : Nat
  timestamp : Nat
  maint_op_class : Nat
  reserved : List Nat
deriving DecidableEq, Repr

/-- A list of exactly `n` bytes. -/
def isBytes (n : Nat) (bs : List Nat) : Prop := bs.length = n ∧ ∀ b ∈ bs, b < 256

instance (n : Nat) (bs : List Nat) : Decidable (isBytes n bs) := by
  unfold isBytes; infer_instance

/-- Every member of the header value fits the width of its C type. -/
def EventRecordHdr.valid (h : EventRecordHdr) : Prop :=
  isBytes 16 h.id ∧ h.length < 2 ^ 8 ∧ isBytes 3 h.flags ∧ h.handle < 2 ^ 16 ∧
  h.related_handle < 2 ^ 16 ∧ h.timestamp < 2 ^ 64 ∧ h.maint_op_class < 2 ^ 8 ∧
  isBytes 15 h.reserved

instance (h : EventRecordHdr) : Decidable h.valid := by
  unfold EventRecordHdr.valid; infer_instance

/-- Modelled from the spec: the encode routine of the event record header,
which `cxlmem.h` only declares as a packed structure: the members in
declaration order, byte-packed, integers little-endian. -/
def encode_hdr (h : EventRecordHdr) : List Nat :=
  h.id ++ (cpu_to_le 1 h.length ++ (h.flags ++ (cpu_to_le 2 h.handle ++
    (cpu_to_le 2 h.related_handle ++ (cpu_to_le 8 h.timestamp ++
      (cpu_to_le 1 h.maint_op_class ++ h.reserved))))))

/-- Bytes of member `f` of a structure of type `t` stored in `buf`: the
`sizeof` bytes that start at `offsetof(t, f)`. -/
def memberBytes (t : CType) (f : String) (buf : List Nat) : List Nat :=
  match offsetof t f, typeof t f with
  | some o, some ft => (buf.drop o).take (sizeof ft)
  | _, _ => []

/-- Modelled from the spec: the decode routine of the event record header:
each member is read at its offset in `struct cxl_event_record_hdr`; a buffer
shorter than the structure is refused. -/
def decode_hdr (buf : List Nat) : Option EventRecordHdr :=
  if buf.length < sizeof cxl_event_record_hdr then none
  else some {
    id := memberBytes cxl_event_record_hdr "id" buf
    length := le_to_cpu (memberBytes cxl_event_record_hdr "length" buf)
    flags := memberBytes cxl_event_record_hdr "flags" buf
    handle := le_to_cpu (memberBytes cxl_event_record_hdr "handle" buf)
    related_handle := le_to_cpu (memberBytes cxl_event_record_hdr "related_handle" buf)
    timestamp := le_to_cpu (memberBytes cxl_event_record_hdr "timestamp" buf)
    maint_op_class := le_to_cpu (memberBytes cxl_event_record_hdr "maint_op_class" buf)
    reserved := memberBytes cxl_event_record_hdr "reserved" buf }

/-! ## Theorems -/

/-- Evaluation of `memberBytes` on the header members. -/
theorem memberBytes_hdr (buf : List Nat) :
    memberBytes cxl_event_record_hdr "id" buf = (buf.drop 0).take 16 ∧
    memberBytes cxl_event_record_hdr "length" buf = (buf.drop 16).take 1 ∧
    memberBytes cxl_event_record_hdr "flags" buf = (buf.drop 17).take 3 ∧
    memberBytes cxl_event_record_hdr "handle" buf = (buf.drop 20).take 2 ∧
    memberBytes cxl_event_record_hdr "related_handle" buf = (buf.drop 22).take 2 ∧
    memberBytes cxl_event_record_hdr "timestamp" buf = (buf.drop 24).take 8 ∧
    memberBytes cxl_event_record_hdr "maint_op_class" buf = (buf.drop 32).take 1 ∧
    memberBytes cxl_event_record_hdr "reserved" buf = (buf.drop 33).take 15 :=
  ⟨rfl, rfl, rfl, rfl, rfl, rfl, rfl, rfl⟩

/-- C3: the packed header is 48 bytes, its members at the byte ranges
id 0..15, length 16, flags 17..19, handle 20..21, related_handle 22..23,
timestamp 24..31, maint_op_class 32, reserved 33..47 (contiguous, so no
padding); in the raw record the header is at 0..47, the 80-byte body follows
at 48..127, and the raw record is 128 bytes. -/
theorem event_record_hdr_layout :
    sizeof cxl_event_record_hdr = 48 ∧
    fieldNames cxl_event_record_hdr =
      ["id", "length", "flags", "handle", "related_handle", "timestamp",
       "maint_op_class", "reserved"] ∧
    byteRange cxl_event_record_hdr "id" = some (0, 15) ∧
    byteRange cxl_event_record_hdr "length" = some (16, 16) ∧
    byteRange cxl_event_record_hdr "flags" = some (17, 19) ∧
    byteRange cxl_event_record_hdr "handle" = some (20, 21) ∧
    byteRange cxl_event_record_hdr "related_handle" = some (22, 23) ∧
    byteRange cxl_event_record_hdr "timestamp" = some (24, 31) ∧
    byteRange cxl_event_record_hdr "maint_op_class" = some (32, 32) ∧
    byteRange cxl_event_record_hdr "reserved" = some (33, 47) ∧
    fieldNames cxl_event_record_raw = ["hdr", "data"] ∧
    byteRange cxl_event_record_raw "hdr" = some (0, 47) ∧
    offsetof cxl_event_record_raw "data" = some 48 ∧
    byteRange cxl_event_record_raw "data" = some (48, 127) ∧
    CXL_EVENT_RECORD_DATA_LENGTH = 80 ∧
    sizeof cxl_event_record_raw = 128 := by
  decide

/-- Shape of the return-code table: entry 0 is `{ 0, NULL }` and every
entry `1..22` is `{ -ENXIO, "..." }`. -/
theorem rctable_get ( ENXIO : Int) (rc : Nat) (hrc : rc ≤ 22) :
    ∃ e, (cxl_mbox_cmd_rctable ENXIO)[rc]? = some e ∧
      (rc = 0 → e.err = 0 ∧ e.desc = none) ∧
      (rc ≠ 0 → e.err = - ENXIO ∧ e.desc ≠ none) := by
  interval_cases rc <;> simp [cxl_mbox_cmd_rctable, CMD_CMD_RC_TABLE]

/-- The description column does not depend on the errno constant. -/
theorem rc2str_param ( ENXIO : Int) (c : cxl_mbox_cmd) :
    cxl_mbox_cmd_rc2str ENXIO c = cxl_mbox_cmd_rc2str 0 c := by
  unfold cxl_mbox_cmd_rc2str
  rw [← List.getElem?_map, ← List.getElem?_map]
  rfl

set_option maxRecDepth 100000 in
/-- The 22 failure descriptions are pairwise different. -/
theorem rc2str_distinct_fin :
    ∀ a b : Fin 23, a ≠ b →
      cxl_mbox_cmd_rc2str 0 ⟨0, [], [], 0, 0, 0, a.val⟩ ≠
        cxl_mbox_cmd_rc2str 0 ⟨0, [], [], 0, 0, 0, b.val⟩ := by
  decide

/-- The lookups read only the `return_code` member of the command. -/
theorem rc2str_only_rc (c : cxl_mbox_cmd) :
    cxl_mbox_cmd_rc2str 0 c = cxl_mbox_cmd_rc2str 0 ⟨0, [], [], 0, 0, 0, c.return_code⟩ :=
  rfl

/-- C1: for every return code of the table (0 = SUCCESS through
22 = PAYLOADLEN), `cxl_mbox_cmd_rc2errno` returns an errno, and that errno is
0 if and only if the return code is 0; every other index yields a non-zero
errno.  `ENXIO` is the kernel's errno constant, any non-zero number. -/
theorem rc2errno_zero_iff_success ( ENXIO : Int) (hE : ENXIO ≠ 0) (mbox_cmd : cxl_mbox_cmd)
    (hrc : mbox_cmd.return_code ≤ 22) :
    ∃ e, cxl_mbox_cmd_rc2errno ENXIO mbox_cmd = some e ∧
      (e = 0 ↔ mbox_cmd.return_code = 0) := by
  obtain ⟨e, he, h0, h1⟩ := rctable_get ENXIO _ hrc
  refine ⟨e.err, by simp [cxl_mbox_cmd_rc2errno, he], ?_, fun h => (h0 h).1⟩
  intro h
  by_contra hne
  have h2 := (h1 hne).1
  rw [h] at h2
  omega

/-- Witness of C1: return code 5 (RETRY) with `ENXIO = 6`. -/
theorem rc2errno_zero_iff_success_witness :
    ∃ e, cxl_mbox_cmd_rc2errno 6 ⟨0, [], [], 0, 0, 0, 5⟩ = some e ∧ (e = 0 ↔ (5 : Nat) = 0) :=
  rc2errno_zero_iff_success 6 (by decide) ⟨0, [], [], 0, 0, 0, 5⟩ (by decide)

/-- C2: two distinct non-success return codes `a`, `b` in `1..22` get the
same error number `-ENXIO` from `cxl_mbox_cmd_rc2errno` and two non-null,
different description strings from `cxl_mbox_cmd_rc2str`; among the codes
`0..22` only the success code 0 has a null description. -/
theorem rc_failures_one_errno_distinct_desc ( ENXIO : Int) :
    (∀ a b : cxl_mbox_cmd,
      1 ≤ a.return_code → a.return_code ≤ 22 →
      1 ≤ b.return_code → b.return_code ≤ 22 →
      a.return_code ≠ b.return_code →
        cxl_mbox_cmd_rc2errno ENXIO a = some (- ENXIO) ∧
        cxl_mbox_cmd_rc2errno ENXIO b = some (- ENXIO) ∧
        ∃ sa sb : String,
          cxl_mbox_cmd_rc2str ENXIO a = some (some sa) ∧
          cxl_mbox_cmd_rc2str ENXIO b = some (some sb) ∧ sa ≠ sb) ∧
    (∀ c : cxl_mbox_cmd, c.return_code ≤ 22 →
      (cxl_mbox_cmd_rc2str ENXIO c = some none ↔ c.return_code = 0)) := by
  constructor
  · intro a b ha1 ha22 hb1 hb22 hab
    obtain ⟨ea, hea, -, ha⟩ := rctable_get ENXIO _ ha22
    obtain ⟨eb, heb, -, hb⟩ := rctable_get ENXIO _ hb22
    have hane : a.return_code ≠ 0 := by omega
    have hbne : b.return_code ≠ 0 := by omega
    obtain ⟨sa, hsa⟩ := Option.ne_none_iff_exists'.mp (ha hane).2
    obtain ⟨sb, hsb⟩ := Option.ne_none_iff_exists'.mp (hb hbne).2
    have hstra : cxl_mbox_cmd_rc2str ENXIO a = some (some sa) := by
      simp [cxl_mbox_cmd_rc2str, hea, hsa]
    have hstrb : cxl_mbox_cmd_rc2str ENXIO b = some (some sb) := by
      simp [cxl_mbox_cmd_rc2str, heb, hsb]
    refine ⟨by simp [cxl_mbox_cmd_rc2errno, hea, (ha hane).1],
      by simp [cxl_mbox_cmd_rc2errno, heb, (hb hbne).1], sa, sb, hstra, hstrb, ?_⟩
    intro hs
    have hfin := rc2str_distinct_fin ⟨a.return_code, by omega⟩ ⟨b.return_code, by omega⟩
      (by intro h; exact hab (congrArg Fin.val h))
    apply hfin
    rw [← rc2str_only_rc a, ← rc2str_only_rc b, ← rc2str_param ENXIO a,
      ← rc2str_param ENXIO b, hstra, hstrb, hs]
  · intro c hc
    obtain ⟨e, he, h0, h1⟩ := rctable_get ENXIO _ hc
    have hstr : cxl_mbox_cmd_rc2str ENXIO c = some e.desc := by
      simp [cxl_mbox_cmd_rc2str, he]
    rw [hstr]
    constructor
    · intro h
      by_contra hne
      exact (h1 hne).2 (Option.some.inj h)
    · intro h
      rw [(h0 h).2]

/-- Witness of C2: return codes 3 (UNSUPPORTED) and 7 (MEDIADISABLED) with
`ENXIO = 6`. -/
theorem rc_failures_one_errno_distinct_desc_witness :
    cxl_mbox_cmd_rc2errno 6 ⟨0, [], [], 0, 0, 0, 3⟩ = some (-6) ∧
    cxl_mbox_cmd_rc2errno 6 ⟨0, [], [], 0, 0, 0, 7⟩ = some (-6) ∧
    ∃ sa sb : String,
      cxl_mbox_cmd_rc2str 6 ⟨0, [], [], 0, 0, 0, 3⟩ = some (some sa) ∧
      cxl_mbox_cmd_rc2str 6 ⟨0, [], [], 0, 0, 0, 7⟩ = some (some sb) ∧ sa ≠ sb :=
  (rc_failures_one_errno_distinct_desc 6).1 ⟨0, [], [], 0, 0, 0, 3⟩ ⟨0, [], [], 0, 0, 0, 7⟩
    (by decide) (by decide) (by decide) (by decide) (by decide)

/-- C5: each typed event record variant starts with the common header at
offset 0, its remaining packed members sum to
`CXL_EVENT_RECORD_DATA_LENGTH` = 80 bytes, and so each variant has the size
of `cxl_event_record_raw` (128 bytes): it overlays the raw record with no
truncation and no overrun. -/
theorem event_variants_fill_raw_record :
    CXL_EVENT_RECORD_DATA_LENGTH = 80 ∧
    (byteRange cxl_event_gen_media "hdr" = some (0, 47) ∧
     bodySize cxl_event_gen_media = CXL_EVENT_RECORD_DATA_LENGTH ∧
     sizeof cxl_event_gen_media = sizeof cxl_event_record_raw) ∧
    (byteRange cxl_event_dram "hdr" = some (0, 47) ∧
     bodySize cxl_event_dram = CXL_EVENT_RECORD_DATA_LENGTH ∧
     sizeof cxl_event_dram = sizeof cxl_event_record_raw) ∧
    (byteRange cxl_event_mem_module "hdr" = some (0, 47) ∧
     bodySize cxl_event_mem_module = CXL_EVENT_RECORD_DATA_LENGTH ∧
     sizeof cxl_event_mem_module = sizeof cxl_event_record_raw) ∧
    bodySize cxl_event_record_raw = CXL_EVENT_RECORD_DATA_LENGTH ∧
    sizeof cxl_event_record_raw = 128 := by
  decide

/-- C6: the fixed part of `struct cxl_get_event_payload` is 32 bytes (flags
at 0, reserved at 1, overflow count at 2..3, first and last overflow
timestamps at 4..11 and 12..19, record count at 20..21, reserved 22..31); the
overflow flag is bit 0 and the more-records flag is bit 1, two different
bits; record `i` starts at byte `32 + 128 * i`. -/
theorem get_event_payload_layout :
    sizeof cxl_get_event_payload = 32 ∧
    byteRange cxl_get_event_payload "flags" = some (0, 0) ∧
    byteRange cxl_get_event_payload "reserved1" = some (1, 1) ∧
    byteRange cxl_get_event_payload "overflow_err_count" = some (2, 3) ∧
    byteRange cxl_get_event_payload "first_overflow_timestamp" = some (4, 11) ∧
    byteRange cxl_get_event_payload "last_overflow_timestamp" = some (12, 19) ∧
    byteRange cxl_get_event_payload "record_count" = some (20, 21) ∧
    byteRange cxl_get_event_payload "reserved2" = some (22, 31) ∧
    offsetof cxl_get_event_payload "records" = some 32 ∧
    CXL_GET_EVENT_FLAG_OVERFLOW = 2 ^ 0 ∧
    CXL_GET_EVENT_FLAG_MORE_RECORDS = 2 ^ 1 ∧
    CXL_GET_EVENT_FLAG_OVERFLOW &&& CXL_GET_EVENT_FLAG_MORE_RECORDS = 0 ∧
    ∀ i : Nat, offsetofElem cxl_get_event_payload "records" i = some (32 + 128 * i) := by
  refine ⟨by decide, by decide, by decide, by decide, by decide, by decide, by decide,
    by decide, by decide, by decide, by decide, by decide, ?_⟩
  intro i
  have h : offsetofElem cxl_get_event_payload "records" i = some (32 + i * 128) := rfl
  rw [h, Nat.mul_comm]

/-- C7: the fixed part of `struct cxl_mbox_clear_event_payload` is 6 bytes
(log type, clear flags, record count, 3 reserved), the handles are 2 bytes
each and start right after it, so a request with `n` handles is `6 + 2 * n`
bytes; `CXL_CLEAR_EVENT_MAX_HANDLES` is 255, and a count `n` is kept
unchanged by the store into the one-byte `nr_recs` exactly when
`n ≤ CXL_CLEAR_EVENT_MAX_HANDLES`. -/
theorem clear_event_payload_layout :
    sizeof cxl_mbox_clear_event_payload = 6 ∧
    byteRange cxl_mbox_clear_event_payload "event_log" = some (0, 0) ∧
    byteRange cxl_mbox_clear_event_payload "clear_flags" = some (1, 1) ∧
    byteRange cxl_mbox_clear_event_payload "nr_recs" = some (2, 2) ∧
    byteRange cxl_mbox_clear_event_payload "reserved" = some (3, 5) ∧
    (∀ i : Nat, offsetofElem cxl_mbox_clear_event_payload "handles" i = some (6 + 2 * i)) ∧
    (∀ n : Nat, sizeofFlex cxl_mbox_clear_event_payload "handles" n = some (6 + 2 * n)) ∧
    CXL_CLEAR_EVENT_MAX_HANDLES = 255 ∧
    ∃ t, typeof cxl_mbox_clear_event_payload "nr_recs" = some t ∧ sizeof t = 1 ∧
      ∀ n : Nat, storeAs t n = n ↔ n ≤ CXL_CLEAR_EVENT_MAX_HANDLES := by
  refine ⟨by decide, by decide, by decide, by decide, by decide, ?_, ?_, by decide,
    u8, rfl, rfl, ?_⟩
  · intro i
    have h : offsetofElem cxl_mbox_clear_event_payload "handles" i = some (6 + i * 2) := rfl
    rw [h, Nat.mul_comm]
  · intro n
    have h : sizeofFlex cxl_mbox_clear_event_payload "handles" n = some (6 + n * 2) := rfl
    rw [h, Nat.mul_comm]
  · intro n
    have hmax : CXL_CLEAR_EVENT_MAX_HANDLES = 255 := by decide
    have hst : storeAs u8 n = n % 256 := rfl
    rw [hmax, hst]
    omega

/-- Counterexample to C8: the Set Partition Info payload is not four 8-byte
fields and is not 32 bytes: it has two members, of 8 and 1 bytes. -/
theorem set_partition_info_not_four_fields :
    ¬ (memberSizes cxl_mbox_get_partition_info = [8, 8, 8, 8] ∧
       sizeof cxl_mbox_get_partition_info = 32 ∧
       memberSizes cxl_mbox_set_partition_info = [8, 8, 8, 8] ∧
       sizeof cxl_mbox_set_partition_info = 32) := by
  decide

/-- C8 as amended: the Get Partition Info payload is four 8-byte
little-endian fields in the order active volatile, active persistent, next
volatile, next persistent capacity, 32 bytes in total, counted in units of
`CXL_CAPACITY_MULTIPLIER` = 256 MiB; the Set Partition Info payload is one
8-byte little-endian volatile capacity followed by one flags byte, 9 bytes in
total, and the immediate flag is bit 0 of that byte. -/
theorem partition_info_layouts :
    fieldNames cxl_mbox_get_partition_info =
      ["active_volatile_cap", "active_persistent_cap", "next_volatile_cap",
       "next_persistent_cap"] ∧
    typeof cxl_mbox_get_partition_info "active_volatile_cap" = some le64 ∧
    typeof cxl_mbox_get_partition_info "active_persistent_cap" = some le64 ∧
    typeof cxl_mbox_get_partition_info "next_volatile_cap" = some le64 ∧
    typeof cxl_mbox_get_partition_info "next_persistent_cap" = some le64 ∧
    byteRange cxl_mbox_get_partition_info "active_volatile_cap" = some (0, 7) ∧
    byteRange cxl_mbox_get_partition_info "active_persistent_cap" = some (8, 15) ∧
    byteRange cxl_mbox_get_partition_info "next_volatile_cap" = some (16, 23) ∧
    byteRange cxl_mbox_get_partition_info "next_persistent_cap" = some (24, 31) ∧
    sizeof cxl_mbox_get_partition_info = 32 ∧
    CXL_CAPACITY_MULTIPLIER = 256 * 2 ^ 20 ∧
    fieldNames cxl_mbox_set_partition_info = ["volatile_capacity", "flags"] ∧
    typeof cxl_mbox_set_partition_info "volatile_capacity" = some le64 ∧
    typeof cxl_mbox_set_partition_info "flags" = some u8 ∧
    byteRange cxl_mbox_set_partition_info "volatile_capacity" = some (0, 7) ∧
    byteRange cxl_mbox_set_partition_info "flags" = some (8, 8) ∧
    sizeof cxl_mbox_set_partition_info = 9 ∧
    CXL_SET_PARTITION_IMMEDIATE_FLAG = 2 ^ 0 :=
  ⟨by decide, rfl, rfl, rfl, rfl, by decide, by decide, by decide, by decide, by decide,
    by decide, by decide, rfl, rfl, by decide, by decide, by decide, by decide⟩

/-- Counterexample to C9: `struct cxl_event_record_hdr` is not 32 bytes. -/
theorem event_record_hdr_not_32 : ¬ (sizeof cxl_event_record_hdr = 32) := by
  decide

/-- C9 as amended: the event record header (UUID, length, flag bytes, handle,
related handle, 64-bit timestamp, maintenance-operation class, then 15
reserved bytes) is a fixed 48-byte structure: its members have the sizes
16, 1, 3, 2, 2, 8, 1 and 15. -/
theorem event_record_hdr_is_48_bytes :
    fieldNames cxl_event_record_hdr =
      ["id", "length", "flags", "handle", "related_handle", "timestamp",
       "maint_op_class", "reserved"] ∧
    memberSizes cxl_event_record_hdr = [16, 1, 3, 2, 2, 8, 1, 15] ∧
    sizeof cxl_event_record_hdr = 48 := by
  decide

/-- The media status field is bits 3:2 of the register: masking with 12 and
shifting right by 2 is division by 4 modulo 4. -/
theorem and_12_shiftRight_2 (s : Nat) : (s &&& 12) >>> 2 = s / 4 % 4 := by
  apply Nat.eq_of_testBit_eq
  intro i
  have h4 : (4 : Nat) = 2 ^ 2 := by norm_num
  have hd : (s / 2 ^ 2).testBit i = s.testBit (2 + i) := by
    rw [← Nat.shiftRight_eq_div_pow, Nat.testBit_shiftRight]
  rw [Nat.testBit_shiftRight, Nat.testBit_and, h4, Nat.testBit_mod_two_pow, hd]
  rcases Nat.lt_or_ge i 2 with h | h
  · interval_cases i <;> simp <;> intro _ <;> decide
  · have h12 : (12 : Nat).testBit (2 + i) = false :=
      Nat.testBit_lt_two_pow (lt_of_lt_of_le (by norm_num : 12 < 2 ^ 4)
        (Nat.pow_le_pow_right (by norm_num) (by omega)))
    simp [h12, Nat.not_lt.mpr h]

/-- Two registers that agree on bits 2 and 3 have the same bits 3:2 field. -/
theorem field_eq_of_bits (s t : Nat) (h2 : s.testBit 2 = t.testBit 2)
    (h3 : s.testBit 3 = t.testBit 3) : s / 4 % 4 = t / 4 % 4 := by
  simp only [Nat.testBit_to_div_mod] at h2 h3
  have a2 := decide_eq_decide.mp h2
  have a3 := decide_eq_decide.mp h3
  norm_num at a2 a3
  omega

/-- The field that `CXLMDEV_READY` extracts from the status register. -/
theorem FIELD_GET_media_status (status : Nat) :
    FIELD_GET CXLMDEV_STATUS_MEDIA_STATUS_MASK status = status / 4 % 4 := by
  have hm : CXLMDEV_STATUS_MEDIA_STATUS_MASK = 12 := by decide
  have hs : bf_shf 12 = 2 := by decide
  have hb : 2 ^ BITS_PER_LONG = 18446744073709551616 := by decide
  unfold FIELD_GET
  rw [hm, hs, and_12_shiftRight_2, hb]
  omega

/-- C10: for every status register value, `CXLMDEV_READY(status)` is true
if and only if the two-bit media status field, bits 3:2, equals
`CXLMDEV_MS_READY` (bit 2 set, bit 3 clear); it is false for NOT_READY,
ERROR and DISABLED; and any other register value with the same bits 2 and 3,
whatever its bits 0, 1, 4, 7:5 and above, gives the same result. -/
theorem media_ready_iff_ms_ready (status : Nat) :
    CXLMDEV_STATUS_MEDIA_STATUS_MASK = 2 ^ 3 + 2 ^ 2 ∧
    (CXLMDEV_READY status = true ↔ status / 2 ^ 2 % 2 ^ 2 = CXLMDEV_MS_READY) ∧
    (CXLMDEV_READY status = true ↔ (status.testBit 2 = true ∧ status.testBit 3 = false)) ∧
    (status / 2 ^ 2 % 2 ^ 2 = CXLMDEV_MS_NOT_READY → CXLMDEV_READY status = false) ∧
    (status / 2 ^ 2 % 2 ^ 2 = CXLMDEV_MS_ERROR → CXLMDEV_READY status = false) ∧
    (status / 2 ^ 2 % 2 ^ 2 = CXLMDEV_MS_DISABLED → CXLMDEV_READY status = false) ∧
    (∀ other : Nat, other.testBit 2 = status.testBit 2 →
      other.testBit 3 = status.testBit 3 → CXLMDEV_READY other = CXLMDEV_READY status) := by
  have hr : ∀ s : Nat, CXLMDEV_READY s = decide (s / 4 % 4 = 1) := by
    intro s
    unfold CXLMDEV_READY
    rw [FIELD_GET_media_status, Bool.eq_iff_iff]
    simp [CXLMDEV_MS_READY]
  have h2 : status.testBit 2 = decide (status / 4 % 2 = 1) := Nat.testBit_to_div_mod
  have h3 : status.testBit 3 = decide (status / 8 % 2 = 1) := Nat.testBit_to_div_mod
  refine ⟨by decide, ?_, ?_, ?_, ?_, ?_, ?_⟩
  · rw [hr]; simp [CXLMDEV_MS_READY]
  · rw [hr, h2, h3]; simp; omega
  · intro h; rw [hr]; simp [CXLMDEV_MS_NOT_READY] at h ⊢; omega
  · intro h; rw [hr]; simp [CXLMDEV_MS_ERROR] at h ⊢; omega
  · intro h; rw [hr]; simp [CXLMDEV_MS_DISABLED] at h ⊢; omega
  · intro other e2 e3
    rw [hr, hr, field_eq_of_bits other status e2 e3]

/-- Witness of C10: status `0x04` is ready, and so is `0xf7`, which differs
from it in the device-fatal, firmware-halt, mailbox-ready and reset-needed
bits only. -/
theorem media_ready_iff_ms_ready_witness :
    CXLMDEV_READY 0xf7 = CXLMDEV_READY 0x04 ∧ CXLMDEV_READY 0x04 = true :=
  ⟨(media_ready_iff_ms_ready 0x04).2.2.2.2.2.2 0xf7 (by decide) (by decide), by decide⟩

/-- An `n`-byte little-endian image has `n` bytes. -/
theorem cpu_to_le_length (n v : Nat) : (cpu_to_le n v).length = n := by
  induction n generalizing v with
  | zero => rfl
  | succ n ih => simp [cpu_to_le, ih]

/-- Every byte of a little-endian image is below 256. -/
theorem cpu_to_le_bytes (n v : Nat) : ∀ b ∈ cpu_to_le n v, b < 256 := by
  induction n generalizing v with
  | zero => intro b hb; simp [cpu_to_le] at hb
  | succ n ih =>
    intro b hb
    simp only [cpu_to_le, List.mem_cons] at hb
    rcases hb with rfl | hb
    · exact Nat.mod_lt _ (by norm_num)
    · exact ih _ b hb

/-- Reading back an `n`-byte little-endian image gives the value modulo
`256 ^ n`. -/
theorem le_to_cpu_cpu_to_le (n v : Nat) : le_to_cpu (cpu_to_le n v) = v % 256 ^ n := by
  induction n generalizing v with
  | zero => simp [cpu_to_le, le_to_cpu, Nat.mod_one]
  | succ n ih =>
    simp only [cpu_to_le, le_to_cpu, ih]
    rw [pow_succ', Nat.mod_mul]

/-- A value that fits `n` bytes survives the little-endian round trip. -/
theorem le_to_cpu_cpu_to_le_of_lt (n v : Nat) (hv : v < 256 ^ n) :
    le_to_cpu (cpu_to_le n v) = v := by
  rw [le_to_cpu_cpu_to_le, Nat.mod_eq_of_lt hv]

/-- The `n` bytes at offset `o` of `pre ++ (x ++ post)` are `x` when `pre`
has `o` bytes and `x` has `n`. -/
theorem slice_append (pre x post : List Nat) (o n : Nat) (ho : pre.length = o)
    (hn : x.length = n) : ((pre ++ (x ++ post)).drop o).take n = x := by
  rw [List.drop_left' ho, List.take_left' hn]

/-- C4: for every event record header value whose members fit their types
(16-byte UUID, 8-bit length, three flag bytes, 16-bit handle and related
handle, 64-bit timestamp, 8-bit maintenance-op class, 15 reserved bytes),
the little-endian packed byte image has the size of
`struct cxl_event_record_hdr`, and decoding it yields the original value. -/
theorem decode_encode_hdr (h : EventRecordHdr) (hv : h.valid) :
    (encode_hdr h).length = sizeof cxl_event_record_hdr ∧
    (∀ b ∈ encode_hdr h, b < 256) ∧
    decode_hdr (encode_hdr h) = some h := by
  obtain ⟨⟨hid, bid⟩, hlen, ⟨hfl, bfl⟩, hh, hrh, hts, hmo, ⟨hres, bres⟩⟩ := hv
  have hsz : sizeof cxl_event_record_hdr = 48 := by decide
  have hL : (encode_hdr h).length = 48 := by
    simp [encode_hdr, cpu_to_le_length, hid, hfl, hres]
  have key : ∀ (pre x post : List Nat) (o n : Nat), encode_hdr h = pre ++ (x ++ post) →
      pre.length = o → x.length = n → ((encode_hdr h).drop o).take n = x := by
    intro pre x post o n he ho hn
    rw [he]
    exact slice_append pre x post o n ho hn
  have e0 := key [] h.id _ 0 16 rfl rfl hid
  have e1 := key h.id (cpu_to_le 1 h.length) _ 16 1 rfl hid (cpu_to_le_length _ _)
  have e2 := key (h.id ++ cpu_to_le 1 h.length) h.flags
    (cpu_to_le 2 h.handle ++ (cpu_to_le 2 h.related_handle ++ (cpu_to_le 8 h.timestamp ++
      (cpu_to_le 1 h.maint_op_class ++ h.reserved)))) 17 3
    (by simp [encode_hdr]) (by simp [hid, cpu_to_le_length]) hfl
  have e3 := key (h.id ++ (cpu_to_le 1 h.length ++ h.flags)) (cpu_to_le 2 h.handle)
    (cpu_to_le 2 h.related_handle ++ (cpu_to_le 8 h.timestamp ++
      (cpu_to_le 1 h.maint_op_class ++ h.reserved))) 20 2
    (by simp [encode_hdr]) (by simp [hid, hfl, cpu_to_le_length]) (cpu_to_le_length _ _)
  have e4 := key (h.id ++ (cpu_to_le 1 h.length ++ (h.flags ++ cpu_to_le 2 h.handle)))
    (cpu_to_le 2 h.related_handle)
    (cpu_to_le 8 h.timestamp ++ (cpu_to_le 1 h.maint_op_class ++ h.reserved)) 22 2
    (by simp [encode_hdr]) (by simp [hid, hfl, cpu_to_le_length]) (cpu_to_le_length _ _)
  have e5 := key (h.id ++ (cpu_to_le 1 h.length ++ (h.flags ++ (cpu_to_le 2 h.handle ++
      cpu_to_le 2 h.related_handle))))
    (cpu_to_le 8 h.timestamp) (cpu_to_le 1 h.maint_op_class ++ h.reserved) 24 8
    (by simp [encode_hdr]) (by simp [hid, hfl, cpu_to_le_length]) (cpu_to_le_length _ _)
  have e6 := key (h.id ++ (cpu_to_le 1 h.length ++ (h.flags ++ (cpu_to_le 2 h.handle ++
      (cpu_to_le 2 h.related_handle ++ cpu_to_le 8 h.timestamp)))))
    (cpu_to_le 1 h.maint_op_class) h.reserved 32 1
    (by simp [encode_hdr]) (by simp [hid, hfl, cpu_to_le_length]) (cpu_to_le_length _ _)
  have e7 := key (h.id ++ (cpu_to_le 1 h.length ++ (h.flags ++ (cpu_to_le 2 h.handle ++
      (cpu_to_le 2 h.related_handle ++ (cpu_to_le 8 h.timestamp ++
        cpu_to_le 1 h.maint_op_class))))))
    h.reserved [] 33 15
    (by simp [encode_hdr]) (by simp [hid, hfl, cpu_to_le_length]) hres
  refine ⟨by rw [hL, hsz], ?_, ?_⟩
  · intro b hb
    simp only [encode_hdr, List.mem_append] at hb
    rcases hb with hb | hb | hb | hb | hb | hb | hb | hb
    · exact bid b hb
    · exact cpu_to_le_bytes _ _ b hb
    · exact bfl b hb
    · exact cpu_to_le_bytes _ _ b hb
    · exact cpu_to_le_bytes _ _ b hb
    · exact cpu_to_le_bytes _ _ b hb
    · exact cpu_to_le_bytes _ _ b hb
    · exact bres b hb
  · obtain ⟨m0, m1, m2, m3, m4, m5, m6, m7⟩ := memberBytes_hdr (encode_hdr h)
    unfold decode_hdr
    rw [if_neg (by rw [hL, hsz]; exact Nat.lt_irrefl 48), m0, m1, m2, m3, m4, m5, m6, m7,
      e0, e1, e2, e3, e4, e5, e6, e7,
      le_to_cpu_cpu_to_le_of_lt 1 _ (by simpa using hlen),
      le_to_cpu_cpu_to_le_of_lt 2 _ (by simpa using hh),
      le_to_cpu_cpu_to_le_of_lt 2 _ (by simpa using hrh),
      le_to_cpu_cpu_to_le_of_lt 8 _ (by simpa using hts),
      le_to_cpu_cpu_to_le_of_lt 1 _ (by simpa using hmo)]

/-- Witness of C4: a header with handle `0x1234`, related handle `0xfffe`
and timestamp `0x0102030405060708`. -/
theorem decode_encode_hdr_witness :
    (encode_hdr ⟨List.replicate 16 0xab, 48, [1, 2, 3], 0x1234, 0xfffe,
        0x0102030405060708, 7, List.replicate 15 0⟩).length =
      sizeof cxl_event_record_hdr ∧
    (∀ b ∈ encode_hdr ⟨List.replicate 16 0xab, 48, [1, 2, 3], 0x1234, 0xfffe,
        0x0102030405060708, 7, List.replicate 15 0⟩, b < 256) ∧
    decode_hdr (encode_hdr ⟨List.replicate 16 0xab, 48, [1, 2, 3], 0x1234, 0xfffe,
        0x0102030405060708, 7, List.replicate 15 0⟩) =
      some ⟨List.replicate 16 0xab, 48, [1, 2, 3], 0x1234, 0xfffe,
        0x0102030405060708, 7, List.replicate 15 0⟩ :=
  decode_encode_hdr ⟨List.replicate 16 0xab, 48, [1, 2, 3], 0x1234, 0xfffe,
    0x0102030405060708, 7, List.replicate 15 0⟩ (by decide)


/-- The return-code table has 23 entries, whatever the errno constant. -/
theorem rctable_length ( ENXIO : Int) : (cxl_mbox_cmd_rctable ENXIO).length = 23 := by
  simp [cxl_mbox_cmd_rctable, CMD_CMD_RC_TABLE]

/-- The table has an entry at index `rc` exactly when `rc ≤ 22`. -/
theorem rctable_isSome_iff ( ENXIO : Int) (rc : Nat) :
    ((cxl_mbox_cmd_rctable ENXIO)[rc]?).isSome = true ↔ rc ≤ 22 := by
  constructor
  · intro h
    by_contra hgt
    have hnone : (cxl_mbox_cmd_rctable ENXIO)[rc]? = none :=
      List.getElem?_eq_none (by rw [rctable_length]; omega)
    rw [hnone] at h
    exact Bool.false_ne_true h
  · intro h
    obtain ⟨e, he, -⟩ := rctable_get ENXIO rc h
    rw [he]
    rfl

/-- C11: `cxl_mbox_cmd_rctable` has exactly 23 entries; the enumerators
built from the same list take the values 0 (`CXL_MBOX_CMD_RC_SUCCESS`)
through 22 (`CXL_MBOX_CMD_RC_PAYLOADLEN`) in table order, entry `i` of the
table being the `{ b, c }` of the `i`-th `C(a, b, c)`; the two lookups, which
index the table with `return_code` and no range check, are within bounds if
and only if `return_code ≤ 22`, so for every `return_code` from 23 to 65535
the index is past the end of the table. -/
theorem rctable_bounds ( ENXIO : Int) :
    (cxl_mbox_cmd_rctable ENXIO).length = 23 ∧
    (CMD_CMD_RC_TABLE ENXIO).map (fun e => CXL_MBOX_CMD_RC e.1) =
      (List.range 23).map some ∧
    CXL_MBOX_CMD_RC "SUCCESS" = some 0 ∧
    CXL_MBOX_CMD_RC "PAYLOADLEN" = some 22 ∧
    (∀ i : Nat, ((cxl_mbox_cmd_rctable ENXIO)[i]?).map (fun r => (r.err, r.desc)) =
      ((CMD_CMD_RC_TABLE ENXIO)[i]?).map (fun e => e.2)) ∧
    (∀ c : cxl_mbox_cmd,
      (cxl_mbox_cmd_rc2errno ENXIO c).isSome = true ↔ c.return_code ≤ 22) ∧
    (∀ c : cxl_mbox_cmd,
      (cxl_mbox_cmd_rc2str ENXIO c).isSome = true ↔ c.return_code ≤ 22) ∧
    (∀ c : cxl_mbox_cmd, 23 ≤ c.return_code → c.return_code ≤ 65535 →
      (cxl_mbox_cmd_rctable ENXIO).length ≤ c.return_code ∧
      cxl_mbox_cmd_rc2errno ENXIO c = none ∧ cxl_mbox_cmd_rc2str ENXIO c = none) := by
  have hnames : (CMD_CMD_RC_TABLE ENXIO).map (fun e => CXL_MBOX_CMD_RC e.1) =
      (CMD_CMD_RC_TABLE 0).map (fun e => CXL_MBOX_CMD_RC e.1) := rfl
  refine ⟨rctable_length ENXIO, ?_, by decide, by decide, ?_, ?_, ?_, ?_⟩
  · rw [hnames]
    decide
  · intro i
    unfold cxl_mbox_cmd_rctable
    rw [List.getElem?_map, Option.map_map]
    rfl
  · intro c
    unfold cxl_mbox_cmd_rc2errno
    rw [Option.isSome_map']
    exact rctable_isSome_iff ENXIO c.return_code
  · intro c
    unfold cxl_mbox_cmd_rc2str
    rw [Option.isSome_map']
    exact rctable_isSome_iff ENXIO c.return_code
  · intro c h23 _
    have hlen : (cxl_mbox_cmd_rctable ENXIO).length ≤ c.return_code := by
      rw [rctable_length]; exact h23
    have hnone : (cxl_mbox_cmd_rctable ENXIO)[c.return_code]? = none :=
      List.getElem?_eq_none hlen
    refine ⟨hlen, ?_, ?_⟩
    · simp [cxl_mbox_cmd_rc2errno, hnone]
    · simp [cxl_mbox_cmd_rc2str, hnone]

/-- Witness of C11: return code 23, the first one past `PAYLOADLEN`, and
return code 65535, the largest 16-bit value, with `ENXIO = 6`. -/
theorem rctable_bounds_witness :
    ((cxl_mbox_cmd_rctable 6).length ≤ 23 ∧
      cxl_mbox_cmd_rc2errno 6 ⟨0, [], [], 0, 0, 0, 23⟩ = none ∧
      cxl_mbox_cmd_rc2str 6 ⟨0, [], [], 0, 0, 0, 23⟩ = none) ∧
    ((cxl_mbox_cmd_rctable 6).length ≤ 65535 ∧
      cxl_mbox_cmd_rc2errno 6 ⟨0, [], [], 0, 0, 0, 65535⟩ = none ∧
      cxl_mbox_cmd_rc2str 6 ⟨0, [], [], 0, 0, 0, 65535⟩ = none) :=
  ⟨(rctable_bounds 6).2.2.2.2.2.2.2 ⟨0, [], [], 0, 0, 0, 23⟩ (by decide) (by decide),
   (rctable_bounds 6).2.2.2.2.2.2.2 ⟨0, [], [], 0, 0, 0, 65535⟩ (by decide) (by decide)⟩

end CxlMem
